import Mathlib

/-!
Verification of the Wavelink `Player` module (src/wavelink/player.py).

The Python code is shallowly embedded below. Python dictionaries are
modelled as insertion-ordered association lists `List (String × JVal)`,
Python scalar values as the inductive `JVal` type (keeping the Python
distinction between `int` and `float` values, since the filter validator
tests `type(x) is float`), Python floats and timestamps as rationals, and
Python exceptions as `Except PyErr` / `Option` results.  Outbound
websocket messages (`node._websocket.send(**payload)`) are modelled as
the keyword dictionaries the code builds, collected in a list of sent
messages so that theorems can speak about what was (or was not) sent.
-/

namespace Wavelink

/-- A Python value as it appears in the payload dictionaries of the
player module.  `int` and `float` are kept distinct because the filter
validation code checks `type(v) is float` and `type(v) is list`. -/
inductive JVal where
  | null
  | bool (b : Bool)
  | int (n : Int)
  | float (q : Rat)
  | str (s : String)
  | list (xs : List JVal)
  | obj (fields : List (String × JVal))

/-- Python truthiness (`if not channel_id`) for the values we model. -/
def JVal.falsy : JVal → Bool
  | .null => true
  | .bool b => !b
  | .int n => n == 0
  | .float q => q == 0
  | .str s => s == ""
  | .list xs => xs.isEmpty
  | .obj fs => fs.isEmpty

/-- `type(v) is float` in Python. -/
def JVal.isFloat : JVal → Bool
  | .float _ => true
  | _ => false

/-- `type(v) is list` in Python. -/
def JVal.isList : JVal → Bool
  | .list _ => true
  | _ => false

/-- First binding of a key in an association list (Python dicts keep keys
unique, so the first binding is the binding). -/
def lookupField : List (String × JVal) → String → Option JVal
  | [], _ => none
  | (k, v) :: rest, key => if k == key then some v else lookupField rest key

/-- `data[k]` on a Python dict, with `none` standing for the raised
`KeyError`/`TypeError`. -/
def JVal.get : JVal → String → Option JVal
  | .obj fs, k => lookupField fs k
  | _, _ => none

/-- `d[k] = v` / `d.update({k: v})` on an insertion-ordered dict: replace
the binding in place if the key exists, otherwise append it. -/
def dictUpdate (d : List (String × JVal)) (k : String) (v : JVal) :
    List (String × JVal) :=
  if d.any (fun kv => kv.1 == k) then
    d.map (fun kv => if kv.1 == k then (k, v) else kv)
  else
    d ++ [(k, v)]

/-- `payload.update(other)` on dicts: fold `dictUpdate` over the bindings
of `other` in order. -/
def dictUpdateAll (payload : List (String × JVal))
    (fs : List (String × JVal)) : List (String × JVal) :=
  fs.foldl (fun acc kv => dictUpdate acc kv.1 kv.2) payload

/-- Both the `sessionId` and the `event` key are present. -/
def hasBoth (d : List (String × JVal)) : Bool :=
  d.any (fun kv => kv.1 == "sessionId") && d.any (fun kv => kv.1 == "event")

/-- Every key of the transient voice-state dict is one of the two
handshake keys.  This holds for the empty initial dict and is preserved
by both notification handlers. -/
def wfVS (d : List (String × JVal)) : Bool :=
  d.all (fun kv => kv.1 == "sessionId" || kv.1 == "event")

/-- The Python guard `{"sessionId", "event"} == self._voice_state.keys()`:
set equality between the key set and the two handshake keys. -/
def keysComplete (d : List (String × JVal)) : Bool :=
  hasBoth d && wfVS d

/-- The Python exceptions the player module can raise. -/
inductive PyErr where
  | keyError (k : String)
  | deformed (msg : String)
  | typeError
  | valueError
  | transportError
  deriving DecidableEq, Repr

/-- Whether an error is the malformed-filter-payload error, which is the
only error shape that names the failing bundle. -/
def errNamesBundle : PyErr → Bool
  | .deformed _ => true
  | _ => false

/-- Whether an `Except` result is a success. -/
def exOk {α : Type} : Except PyErr α → Bool
  | .ok _ => true
  | .error _ => false

/-- A resolved playable track: opaque identifier plus duration in
seconds. -/
structure Track where
  id : String
  duration : Rat

/-- The mutable attributes of a `Player` object.  `connected` is an
`Option` because `__init__` never assigns `self._connected`; `none`
models the attribute not existing (reading it raises `AttributeError`).
`last_update` and `last_position` are `Option` because `__init__`
assigns them the `MISSING` sentinel, with which arithmetic would raise. -/
structure PlayerState where
  guildId : Nat
  channel : JVal
  connected : Option Bool
  paused : Bool
  volume : Int
  source : Option Track
  voice_state : List (String × JVal)
  last_update : Option Rat
  last_position : Option Rat

/-- `Player.__init__`: volume 100, not paused, no source, empty voice
state, `MISSING` snapshots, and no `_connected` attribute at all. -/
def mkPlayer (gid : Nat) (ch : JVal) : PlayerState :=
  { guildId := gid
    channel := ch
    connected := none
    paused := false
    volume := 100
    source := none
    voice_state := []
    last_update := none
    last_position := none }

/-- `Player.connect`: the host join request is an external collaborator;
locally the call assigns `self._connected = True`. -/
def connect (p : PlayerState) : PlayerState :=
  { p with connected := some true }

/-- `Player.is_connected`, returning `none` for the `AttributeError`
raised when `_connected` was never assigned. -/
def isConnectedO (p : PlayerState) : Option Bool :=
  p.connected

/-- `Player.is_playing`: `is_connected() and self._source is not None`,
propagating the `AttributeError`. -/
def isPlayingO (p : PlayerState) : Option Bool :=
  match p.connected with
  | none => none
  | some c => some (c && p.source.isSome)

/-- Python `min(a, b)` on two numbers: the first argument when the two
compare equal. -/
def pymin (a b : Rat) : Rat :=
  if a ≤ b then a else b

/-- Floor of a rational as an integer, via floor division of the
numerator by the (positive) denominator. -/
def floorZ (q : Rat) : Int :=
  q.num.fdiv (q.den : Int)

/-- Round a rational to the nearest integer, ties to even (the rounding
Python's `round` uses). -/
def bankers (x : Rat) : Int :=
  if x - (floorZ x : Rat) < 1/2 then floorZ x
  else if 1/2 < x - (floorZ x : Rat) then floorZ x + 1
  else if floorZ x % 2 = 0 then floorZ x else floorZ x + 1

/-- Python `round(q, 1)`: round to one decimal digit, ties to even,
modelled exactly on rationals. -/
def pyRound1 (q : Rat) : Rat :=
  (bankers (q * 10) : Rat) / 10

/-- `Player.update_state`: store the snapshot pair from a player-state
notification, `time` and `position` given in milliseconds. -/
def update_state (p : PlayerState) (timeMs posMs : Rat) : PlayerState :=
  { p with
    last_update := some (timeMs / 1000)
    last_position := some (pyRound1 (posMs / 1000)) }

/-- `Player.position` read at wall-clock time `t` (seconds): 0 when not
playing; `min(last_position, duration)` when paused; otherwise
`min(round(last_position + (t - last_update), 1), duration)`.  `none`
models the exception raised when `_connected` is unset or a needed
snapshot is still the `MISSING` sentinel. -/
def positionO (p : PlayerState) (t : Rat) : Option Rat :=
  match isPlayingO p with
  | none => none
  | some false => some 0
  | some true =>
    if p.paused then
      match p.last_position, p.source with
      | some lp, some s => some (pymin lp s.duration)
      | _, _ => none
    else
      match p.last_position, p.last_update, p.source with
      | some lp, some lu, some s =>
          some (pymin (pyRound1 (lp + (t - lu))) s.duration)
      | _, _, _ => none

/-- The keyword dictionary of the `voiceUpdate` control message:
`op`, `guildId`, then the entries of the dict passed to the dispatcher. -/
def voiceUpdateMsg (gid : Nat) (vs : List (String × JVal)) :
    List (String × JVal) :=
  ("op", JVal.str "voiceUpdate") :: ("guildId", JVal.str (toString gid)) :: vs

/-- `Player._dispatch_voice_update`: the guard inspects the STORED
`self._voice_state`, while the message body is built from the ARGUMENT
dict — the two differ in `on_voice_state_update`. -/
def dispatchVoiceUpdate (p : PlayerState) (vsArg : List (String × JVal)) :
    List (List (String × JVal)) :=
  if keysComplete p.voice_state then [voiceUpdateMsg p.guildId vsArg] else []

/-- `Player.on_voice_server_update`: merge the `event` fragment, then
attempt dispatch with the stored dict itself. -/
def on_voice_server_update (p : PlayerState) (data : JVal) :
    PlayerState × List (List (String × JVal)) :=
  let p2 := { p with voice_state := dictUpdate p.voice_state "event" data }
  (p2, dispatchVoiceUpdate p2 p2.voice_state)

/-- `Player.on_voice_state_update`: merge the `sessionId` fragment; an
empty/null `channel_id` clears the whole transient dict and returns;
otherwise the channel is reassigned and dispatch is attempted with
`{**self._voice_state, "event": data}` — the notification payload itself
overrides the stored `event` fragment in the message that is sent.
`none` models the `KeyError` when the payload lacks a needed key. -/
def on_voice_state_update (p : PlayerState) (data : JVal) :
    Option (PlayerState × List (List (String × JVal))) :=
  match data.get "session_id" with
  | none => none
  | some sid =>
    let p2 := { p with voice_state := dictUpdate p.voice_state "sessionId" sid }
    match data.get "channel_id" with
    | none => none
    | some cid =>
      if cid.falsy then
        some ({ p2 with voice_state := [] }, [])
      else
        let p3 := { p2 with channel := cid }
        some (p3, dispatchVoiceUpdate p3 (dictUpdate p3.voice_state "event" data))

/-- The state mutation and message of `Player.play` when it proceeds:
reset the tracker baseline (`update_state` with an empty state dict),
clear the pause flag, store the source, and build the `play` payload.
Unresolved track references are resolved by the track itself and are out
of scope; `source` here is already resolved. -/
def playGo (p : PlayerState) (src : Track) (replace : Bool)
    (start endT : Int) :
    PlayerState × List (List (String × JVal)) × Option Track :=
  let p1 := { update_state p 0 0 with paused := false, source := some src }
  let payload :=
    [("op", JVal.str "play"),
     ("guildId", JVal.str (toString p.guildId)),
     ("track", JVal.str src.id),
     ("noReplace", JVal.bool (!replace)),
     ("startTime", JVal.str (toString start))] ++
    (if endT > 0 then [("endTime", JVal.str (toString endT))] else [])
  (p1, [payload], some src)

/-- `Player.play`: `if replace or not self.is_playing()` — when
`replace` is false and the player is already playing, the call returns
`None` at once, sending nothing and touching no state.  `none` models
the `AttributeError` from `is_playing` on a never-connected player
(only reachable when `replace` is false, by short-circuit). -/
def play (p : PlayerState) (src : Track) (replace : Bool)
    (start endT : Int) :
    Option (PlayerState × List (List (String × JVal)) × Option Track) :=
  if replace then
    some (playGo p src replace start endT)
  else
    match isPlayingO p with
    | none => none
    | some true => some (p, [], none)
    | some false => some (playGo p src replace start endT)

/-- `Player.set_volume`: clamp to [0, 1000], store, send the `volume`
control message carrying the stored value. -/
def set_volume (p : PlayerState) (v : Int) :
    PlayerState × List (String × JVal) :=
  let vol := max (min v 1000) 0
  ({ p with volume := vol },
   [("op", JVal.str "volume"),
    ("guildId", JVal.str (toString p.guildId)),
    ("volume", JVal.int vol)])

/-- Outcome of `Player.disconnect`: the exception that propagated (if
any), the player, the node's player list, and whether `cleanup()` ran. -/
structure DiscResult where
  raised : Option PyErr
  player : PlayerState
  players : List Nat
  cleaned : Bool

/-- `Player.disconnect`.  Modelled from the spec: the node collaborator
exposes `node.players`, a mutable collection supporting append/remove
(section 6 of the spec); it is modelled as a list of player identifiers,
with `pid` this player's identifier, and `cleanup()` as a flag.  The
try/finally structure is from the source: the leave request (external;
`leaveFails` says whether it raises) and the `_connected = False`
assignment are in the `try` body, and `node.players.remove(self)`
followed by `self.cleanup()` run in the `finally`.  Python
`list.remove` raises `ValueError` when the element is absent, in which
case `cleanup()` on the following line never runs. -/
def disconnect (p : PlayerState) (pid : Nat) (players : List Nat)
    (leaveFails : Bool) : DiscResult :=
  let p2 := if leaveFails then p else { p with connected := some false }
  if pid ∈ players then
    { raised := if leaveFails then some .transportError else none
      player := p2
      players := players.erase pid
      cleaned := true }
  else
    { raised := some .valueError
      player := p2
      players := players
      cleaned := false }

/-- The equalizer argument of `set_filters`: a canonical dict or the
shorthand ordered sequence of `(band, gain)` pairs. -/
inductive EqArg where
  | dict (j : JVal)
  | pairs (l : List (JVal × JVal))

/-- The rotation / lowPass argument of `set_filters`: a canonical dict
or the shorthand single float. -/
inductive FloatArg where
  | dict (j : JVal)
  | num (q : Rat)

/-- Shorthand normalization for the equalizer argument:
`{"equalizer": [{"band": i[0], "gain": i[1]} for i in levels]}`. -/
def normEq : EqArg → JVal
  | .dict j => j
  | .pairs l =>
    .obj [("equalizer",
      .list (l.map (fun pr => JVal.obj [("band", pr.1), ("gain", pr.2)])))]

/-- Shorthand normalization for the rotation argument:
`{"rotation": {"rotationHz": value}}`. -/
def normRot : FloatArg → JVal
  | .dict j => j
  | .num q => .obj [("rotation", .obj [("rotationHz", .float q)])]

/-- Shorthand normalization for the lowPass argument:
`{"lowPass": {"smoothing": value}}`. -/
def normLow : FloatArg → JVal
  | .dict j => j
  | .num q => .obj [("lowPass", .obj [("smoothing", .float q)])]

/-- `j[k]` with the raised exception made explicit: `KeyError` for a
missing key, `TypeError` when `j` is not a dict. -/
def getE (j : JVal) (k : String) : Except PyErr JVal :=
  match j with
  | .obj fs =>
    match lookupField fs k with
    | some v => .ok v
    | none => .error (.keyError k)
  | _ => .error .typeError

/-- The chained `type(inner[f]) is not float or ...` test of one filter
bundle: fields are looked up and type-checked left to right, a missing
field raising its `KeyError` and a non-float field raising the
`Deformed ...` exception. -/
def checkFloatFields (inner : JVal) (ename : String) :
    List String → Except PyErr Unit
  | [] => .ok ()
  | f :: rest =>
    match getE inner f with
    | .error e => .error e
    | .ok v =>
      if v.isFloat then checkFloatFields inner ename rest
      else .error (.deformed ename)

/-- Validation of one canonical filter bundle `{outer: {fields...}}`. -/
def checkBundle (outer : String) (fields : List String) (ename : String)
    (j : JVal) : Except PyErr Unit :=
  match getE j outer with
  | .error e => .error e
  | .ok inner => checkFloatFields inner ename fields

/-- The equalizer validation is only
`type(equalizerjson["equalizer"]) is not list`: contents of the list are
never inspected. -/
def checkEq (j : JVal) : Except PyErr Unit :=
  match getE j "equalizer" with
  | .error e => .error e
  | .ok v => if v.isList then .ok () else .error (.deformed "Deformed equalizerjson")

def checkKaraoke : JVal → Except PyErr Unit :=
  checkBundle "karaoke" ["level", "monoLevel", "filterBand", "filterWidth"]
    "Deformed karaokejson"

def checkTimescale : JVal → Except PyErr Unit :=
  checkBundle "timescale" ["speed", "pitch", "rate"] "Deformed timescalejson"

def checkTremolo : JVal → Except PyErr Unit :=
  checkBundle "tremolo" ["frequency", "depth"] "Deformed tremolojson"

def checkVibrato : JVal → Except PyErr Unit :=
  checkBundle "vibrato" ["frequency", "depth"] "Deformed vibratojson"

def checkRotation : JVal → Except PyErr Unit :=
  checkBundle "rotation" ["rotationHz"] "Deformed rotationjson"

def checkDistortion : JVal → Except PyErr Unit :=
  checkBundle "distortion"
    ["sinOffset", "sinScale", "cosOffset", "cosScale",
     "tanOffset", "tanScale", "offset", "scale"]
    "Deformed distortionjson"

/-- The source's message for this bundle really is "Deformed channelMix",
without the `json` suffix. -/
def checkChannelMix : JVal → Except PyErr Unit :=
  checkBundle "channelMix"
    ["leftToLeft", "leftToRight", "rightToLeft", "rightToRight"]
    "Deformed channelMix"

def checkLowPass : JVal → Except PyErr Unit :=
  checkBundle "lowPass" ["smoothing"] "Deformed lowPassjson"

/-- `payload.update(bundlejson)`: merge every binding of the bundle dict
into the payload; a non-dict would raise `TypeError`. -/
def payloadUpdate (payload : List (String × JVal)) (j : JVal) :
    Except PyErr (List (String × JVal)) :=
  match j with
  | .obj fs => .ok (dictUpdateAll payload fs)
  | _ => .error .typeError

/-- One `if bundle is not None: check; payload.update(bundle)` step. -/
def applyBundle (payload : List (String × JVal)) :
    Option JVal → (JVal → Except PyErr Unit) →
    Except PyErr (List (String × JVal))
  | none, _ => .ok payload
  | some j, check =>
    match check j with
    | .error e => .error e
    | .ok _ => payloadUpdate payload j

/-- Run the bundle steps in sequence, aborting at the first raised
exception. -/
def applyAll (payload : List (String × JVal)) :
    List (Option JVal × (JVal → Except PyErr Unit)) →
    Except PyErr (List (String × JVal))
  | [] => .ok payload
  | (o, c) :: rest =>
    match applyBundle payload o c with
    | .error e => .error e
    | .ok p => applyAll p rest

/-- The arguments of `set_filters`, each bundle independently optional,
with the two shorthand-accepting bundles given their union types. -/
structure FiltersArgs where
  equalizer : Option EqArg := none
  karaoke : Option JVal := none
  timescale : Option JVal := none
  tremolo : Option JVal := none
  vibrato : Option JVal := none
  rotation : Option FloatArg := none
  distortion : Option JVal := none
  channelMix : Option JVal := none
  lowPass : Option FloatArg := none

/-- The nine bundle steps of `set_filters` in source order, after
shorthand normalization. -/
def bundleList (a : FiltersArgs) :
    List (Option JVal × (JVal → Except PyErr Unit)) :=
  [(a.equalizer.map normEq, checkEq),
   (a.karaoke, checkKaraoke),
   (a.timescale, checkTimescale),
   (a.tremolo, checkTremolo),
   (a.vibrato, checkVibrato),
   (a.rotation.map normRot, checkRotation),
   (a.distortion, checkDistortion),
   (a.channelMix, checkChannelMix),
   (a.lowPass.map normLow, checkLowPass)]

/-- `Player.set_filters`: normalize shorthands, start the payload with
`op` and `guildId`, validate and merge each supplied bundle in order,
and (on success) the final payload is the single message sent. -/
def set_filters (gid : Nat) (a : FiltersArgs) :
    Except PyErr (List (String × JVal)) :=
  applyAll [("op", JVal.str "filters"), ("guildId", JVal.str (toString gid))]
    (bundleList a)

/-- The control messages a `set_filters` call sends: the merged payload
exactly when no exception was raised, nothing otherwise. -/
def filtersSends (gid : Nat) (a : FiltersArgs) :
    List (List (String × JVal)) :=
  match set_filters gid a with
  | .ok p => [p]
  | .error _ => []

/-- Whether one optional bundle passes its validation. -/
def passes : Option JVal → (JVal → Except PyErr Unit) → Bool
  | none, _ => true
  | some j, c =>
    match c j with
    | .ok _ => true
    | .error _ => false

/-- Every supplied bundle (after shorthand normalization) passes its
validation. -/
def allChecksPass (a : FiltersArgs) : Bool :=
  (bundleList a).all (fun oc => passes oc.1 oc.2)

/-- The `event` payload of the ServerUpdate notification used in the
handshake scenario. -/
def c1E : JVal :=
  .obj [("token", .str "tok"), ("endpoint", .str "ep")]

/-- The StateUpdate notification payload used in the handshake
scenario. -/
def c1D : JVal :=
  .obj [("session_id", .str "abc"), ("channel_id", .str "123")]

/-- A `set_filters` karaoke argument whose `level` is the integer 1 and
whose other fields are floats. -/
def c2args : FiltersArgs :=
  { karaoke := some (.obj [("karaoke",
      .obj [("level", .int 1), ("monoLevel", .float 1),
            ("filterBand", .float 220), ("filterWidth", .float 100)])]) }

/-- A `set_filters` karaoke argument missing the required `level`
field. -/
def c2missingArgs : FiltersArgs :=
  { karaoke := some (.obj [("karaoke", .obj [])]) }

/-- A playing, unpaused player whose stored update timestamp lies in the
future of the wall clock used to read `position`. -/
def c3p : PlayerState :=
  { guildId := 1
    channel := .null
    connected := some true
    paused := false
    volume := 100
    source := some { id := "trk", duration := 200 }
    voice_state := []
    last_update := some 100
    last_position := some 0 }

/-- A connected player with a current source: a playing player. -/
def c8p : PlayerState :=
  { mkPlayer 2 .null with
    connected := some true
    source := some { id := "a", duration := 100 } }

/-- A `set_filters` equalizer argument whose list is empty. -/
def c5emptyArgs : FiltersArgs :=
  { equalizer := some (.dict (.obj [("equalizer", .list [])])) }

/-- A `set_filters` equalizer argument whose list holds an element with
neither `band` nor `gain`. -/
def c5noBandArgs : FiltersArgs :=
  { equalizer := some (.dict (.obj [("equalizer", .list [JVal.obj []])])) }

/-! Helper lemmas. -/

lemma pymin_le_right (a b : Rat) : pymin a b ≤ b := by
  unfold pymin
  split
  · assumption
  · exact le_refl b

lemma pymin_nonneg (a b : Rat) (ha : 0 ≤ a) (hb : 0 ≤ b) : 0 ≤ pymin a b := by
  unfold pymin
  split <;> assumption

lemma floorZ_nonneg (q : Rat) (h : 0 ≤ q) : 0 ≤ floorZ q := by
  unfold floorZ
  exact Int.fdiv_nonneg (Rat.num_nonneg.mpr h) (by positivity)

lemma bankers_nonneg (x : Rat) (h : 0 ≤ x) : 0 ≤ bankers x := by
  have hf := floorZ_nonneg x h
  unfold bankers
  split
  · exact hf
  split
  · omega
  split <;> omega

lemma pyRound1_nonneg (q : Rat) (h : 0 ≤ q) : 0 ≤ pyRound1 q := by
  have hb : (0 : Int) ≤ bankers (q * 10) := bankers_nonneg _ (by positivity)
  unfold pyRound1
  exact div_nonneg (by exact_mod_cast hb) (by norm_num)

lemma bankers_intCast (m : Int) : bankers (m : Rat) = m := by
  unfold bankers floorZ
  rw [Rat.num_intCast, Rat.den_intCast]
  simp only [Nat.cast_one, Int.fdiv_one]
  rw [if_pos (by norm_num)]

lemma pyRound1_intCast (m : Int) : pyRound1 (m : Rat) = (m : Rat) := by
  unfold pyRound1
  have h : ((m : Rat) * 10) = ((m * 10 : Int) : Rat) := by push_cast; ring
  rw [h, bankers_intCast]
  push_cast
  exact mul_div_cancel_right₀ _ (by norm_num)

lemma applyBundle_ok_passes {payload q : List (String × JVal)} {o : Option JVal}
    {c : JVal → Except PyErr Unit} (h : applyBundle payload o c = .ok q) :
    passes o c = true := by
  cases o with
  | none => rfl
  | some j =>
    simp only [applyBundle] at h
    simp only [passes]
    cases hc : c j with
    | ok u => rfl
    | error e => rw [hc] at h; exact Except.noConfusion h

lemma applyAll_ok_passes :
    ∀ (l : List (Option JVal × (JVal → Except PyErr Unit)))
      (payload q : List (String × JVal)),
      applyAll payload l = .ok q →
      l.all (fun oc => passes oc.1 oc.2) = true := by
  intro l
  induction l with
  | nil => intro payload q h; rfl
  | cons hd tl ih =>
    obtain ⟨o, c⟩ := hd
    intro payload q h
    unfold applyAll at h
    cases hap : applyBundle payload o c with
    | error e => rw [hap] at h; cases h
    | ok p =>
      rw [hap] at h
      simp only [List.all_cons, Bool.and_eq_true]
      exact ⟨applyBundle_ok_passes hap, ih p q h⟩

lemma set_filters_ok_passes {gid : Nat} {a : FiltersArgs} {p : List (String × JVal)}
    (h : set_filters gid a = .ok p) : allChecksPass a = true :=
  applyAll_ok_passes _ _ _ h

lemma wfVS_dictUpdate {d : List (String × JVal)} {k : String} (v : JVal)
    (hd : wfVS d = true) (hk : k = "sessionId" ∨ k = "event") :
    wfVS (dictUpdate d k v) = true := by
  unfold dictUpdate
  unfold wfVS at hd ⊢
  split
  · simp only [List.all_eq_true, List.mem_map] at hd ⊢
    rintro x ⟨kv, hkv, rfl⟩
    split
    · rcases hk with rfl | rfl <;> simp
    · exact hd kv hkv
  · simp only [List.all_append, List.all_cons, List.all_nil, hd, Bool.true_and,
      Bool.and_true]
    rcases hk with rfl | rfl <;> simp

/-! Claim theorems. -/

/-- Claim C1 (amended), clause bundle: a voiceUpdate control message is
dispatched iff, after merging the triggering fragment, both the
sessionId and event keys are present in the transient voice-state dict;
ServerUpdate alone sends nothing; a following StateUpdate with a
non-empty channelId then sends exactly one voiceUpdate message
containing guildId and the just-stored sessionId fragment, but with its
event field set to the StateUpdate payload itself, which overrides the
stored ServerUpdate fragment inside the sent message (the stored dict
still holds the earlier fragment). -/
theorem c1_voice_dispatch_amended :
    (∀ (p : PlayerState) (e : JVal), wfVS p.voice_state = true →
      ((on_voice_server_update p e).2 ≠ [] ↔
        hasBoth (dictUpdate p.voice_state "event" e) = true)) ∧
    (∀ (p : PlayerState) (sid cid : JVal) (ps : PlayerState)
        (sends : List (List (String × JVal))),
      cid.falsy = false → wfVS p.voice_state = true →
      on_voice_state_update p (.obj [("session_id", sid), ("channel_id", cid)]) =
        some (ps, sends) →
      ps = { p with voice_state := dictUpdate p.voice_state "sessionId" sid,
                    channel := cid } ∧
      (sends ≠ [] ↔ hasBoth (dictUpdate p.voice_state "sessionId" sid) = true)) ∧
    (∀ (p : PlayerState) (e sid cid : JVal), p.voice_state = [] → cid.falsy = false →
      (on_voice_server_update p e).2 = [] ∧
      on_voice_state_update (on_voice_server_update p e).1
          (.obj [("session_id", sid), ("channel_id", cid)]) =
        some ({ p with voice_state := [("event", e), ("sessionId", sid)],
                       channel := cid },
          [[("op", JVal.str "voiceUpdate"),
            ("guildId", JVal.str (toString p.guildId)),
            ("event", JVal.obj [("session_id", sid), ("channel_id", cid)]),
            ("sessionId", sid)]])) := by
  refine ⟨?_, ?_, ?_⟩
  · intro p e hwf
    have hwf2 : wfVS (dictUpdate p.voice_state "event" e) = true :=
      wfVS_dictUpdate e hwf (Or.inr rfl)
    cases hhb : hasBoth (dictUpdate p.voice_state "event" e) <;>
      simp [on_voice_server_update, dispatchVoiceUpdate, keysComplete, hwf2, hhb]
  · intro p sid cid ps sends hcid hwf h
    have hwf2 : wfVS (dictUpdate p.voice_state "sessionId" sid) = true :=
      wfVS_dictUpdate sid hwf (Or.inl rfl)
    simp only [on_voice_state_update, JVal.get, lookupField] at h
    rw [show (("session_id" : String) == "session_id") = true from rfl] at h
    rw [show (("session_id" : String) == "channel_id") = false from rfl] at h
    rw [show (("channel_id" : String) == "channel_id") = true from rfl] at h
    simp only [if_true, if_false, hcid, Bool.false_eq_true, reduceIte,
      Option.some.injEq, Prod.mk.injEq] at h
    obtain ⟨hps, hsends⟩ := h
    subst hps hsends
    refine ⟨rfl, ?_⟩
    cases hhb : hasBoth (dictUpdate p.voice_state "sessionId" sid) <;>
      simp [dispatchVoiceUpdate, keysComplete, hwf2, hhb]
  · intro p e sid cid hvs hcid
    obtain ⟨gid, ch, conn, pau, vol, src, vs, lu, lp⟩ := p
    simp only at hvs
    subst hvs
    constructor
    · simp [on_voice_server_update, dispatchVoiceUpdate, keysComplete, hasBoth,
        dictUpdate, wfVS]
    · simp [on_voice_server_update, on_voice_state_update, dispatchVoiceUpdate,
        keysComplete, hasBoth, wfVS, dictUpdate, JVal.get, lookupField, hcid,
        voiceUpdateMsg]

/-- Claim C1, witness: the two-step scenario at concrete inputs. -/
theorem c1_voice_dispatch_amended_witness :
    (on_voice_server_update (mkPlayer 42 .null) (JVal.str "ev")).2 = [] ∧
    on_voice_state_update (on_voice_server_update (mkPlayer 42 .null) (JVal.str "ev")).1
        (.obj [("session_id", JVal.str "abc"), ("channel_id", JVal.str "123")]) =
      some ({ mkPlayer 42 .null with
                voice_state := [("event", JVal.str "ev"), ("sessionId", JVal.str "abc")],
                channel := JVal.str "123" },
        [[("op", JVal.str "voiceUpdate"), ("guildId", JVal.str "42"),
          ("event", JVal.obj [("session_id", JVal.str "abc"), ("channel_id", JVal.str "123")]),
          ("sessionId", JVal.str "abc")]]) :=
  c1_voice_dispatch_amended.2.2 (mkPlayer 42 .null) (JVal.str "ev")
    (JVal.str "abc") (JVal.str "123") rfl rfl

/-- Claim C1, counterexample: after ServerUpdate with event fragment
`c1E` and then StateUpdate with payload `c1D`, exactly one voiceUpdate
message is sent, but its event field is `c1D` — the StateUpdate payload
— and not the stored fragment `c1E`, contradicting the claim that the
message contains the stored event fragment from the earlier
ServerUpdate. -/
theorem c1_sent_event_not_stored_fragment :
    (on_voice_server_update (mkPlayer 42 .null) c1E).2 = [] ∧
    on_voice_state_update (on_voice_server_update (mkPlayer 42 .null) c1E).1 c1D =
      some ({ mkPlayer 42 .null with
                voice_state := [("event", c1E), ("sessionId", JVal.str "abc")],
                channel := JVal.str "123" },
        [[("op", JVal.str "voiceUpdate"), ("guildId", JVal.str "42"),
          ("event", c1D), ("sessionId", JVal.str "abc")]]) ∧
    c1D ≠ c1E := by
  refine ⟨rfl, rfl, fun h => ?_⟩
  have h2 : c1D.get "token" = c1E.get "token" :=
    congrArg (fun j => JVal.get j "token") h
  rw [show c1D.get "token" = none from rfl,
      show c1E.get "token" = some (.str "tok") from rfl] at h2
  exact Option.noConfusion h2

/-- Claim C2 (amended): if any supplied filter bundle fails its
validation (after shorthand normalization), an exception is raised and
no control message is sent — no partial send; in particular the karaoke
bundle whose level field is the integer 1 raises the malformed-payload
error naming karaokejson and sends nothing.  (When a required field is
missing rather than ill-typed, the raised exception is a bare key-lookup
error naming the field, not the bundle — see the counterexample.) -/
theorem c2_invalid_filter_aborts_send :
    (∀ (gid : Nat) (a : FiltersArgs), allChecksPass a = false →
      exOk (set_filters gid a) = false ∧ filtersSends gid a = []) ∧
    set_filters 7 c2args = .error (.deformed "Deformed karaokejson") ∧
    filtersSends 7 c2args = [] := by
  refine ⟨?_, rfl, rfl⟩
  intro gid a h
  cases hs : set_filters gid a with
  | ok p => exact absurd (set_filters_ok_passes hs) (by rw [h]; exact Bool.false_ne_true)
  | error e =>
    refine ⟨rfl, ?_⟩
    unfold filtersSends
    rw [hs]

/-- Claim C2, witness: the general abort clause applied to the
ill-typed karaoke bundle. -/
theorem c2_invalid_filter_aborts_send_witness :
    exOk (set_filters 9 c2args) = false ∧ filtersSends 9 c2args = [] :=
  c2_invalid_filter_aborts_send.1 9 c2args (by decide)

/-- Claim C2, counterexample: a karaoke bundle missing its required
level field makes the call abort with `KeyError("level")`, an error that
does not identify the failing bundle, contradicting the claim that every
validation failure raises an error identifying the failing bundle. -/
theorem c2_missing_field_error_unnamed :
    set_filters 1 c2missingArgs = .error (.keyError "level") ∧
    errNamesBundle (.keyError "level") = false ∧
    filtersSends 1 c2missingArgs = [] :=
  ⟨rfl, rfl, rfl⟩

/-- Claim C3 (amended): position returns 0 when not playing; when
playing and paused it returns `min(last_position, duration)`; when
playing and not paused it returns
`min(round1(last_position + (now - last_update)), duration)` — clamped
above by the duration but NOT clamped below by 0; it is nonnegative
whenever the snapshot is nonnegative, the clock has not run backwards,
and the duration is nonnegative. -/
theorem c3_position_clamped_above_only :
    (∀ (p : PlayerState) (t : Rat), isPlayingO p = some false →
      positionO p t = some 0) ∧
    (∀ (p : PlayerState) (t lp : Rat) (s : Track),
      isPlayingO p = some true → p.paused = true →
      p.last_position = some lp → p.source = some s →
      positionO p t = some (pymin lp s.duration) ∧
      pymin lp s.duration ≤ s.duration) ∧
    (∀ (p : PlayerState) (t lp lu : Rat) (s : Track),
      isPlayingO p = some true → p.paused = false →
      p.last_position = some lp → p.last_update = some lu → p.source = some s →
      positionO p t = some (pymin (pyRound1 (lp + (t - lu))) s.duration) ∧
      pymin (pyRound1 (lp + (t - lu))) s.duration ≤ s.duration ∧
      (0 ≤ lp → lu ≤ t → 0 ≤ s.duration →
        0 ≤ pymin (pyRound1 (lp + (t - lu))) s.duration)) := by
  refine ⟨?_, ?_, ?_⟩
  · intro p t h
    unfold positionO
    rw [h]
  · intro p t lp s hpl hpa hlp hsrc
    refine ⟨?_, pymin_le_right _ _⟩
    unfold positionO
    rw [hpl, hpa, hlp, hsrc]
    simp
  · intro p t lp lu s hpl hpa hlp hlu hsrc
    refine ⟨?_, pymin_le_right _ _, ?_⟩
    · unfold positionO
      rw [hpl, hpa, hlp, hlu, hsrc]
      simp
    · intro h1 h2 h3
      exact pymin_nonneg _ _ (pyRound1_nonneg _ (by linarith)) h3

/-- Claim C3, witness: a playing paused player and a playing unpaused
player at concrete snapshots. -/
theorem c3_position_clamped_above_only_witness :
    positionO { c3p with paused := true } 0 = some (pymin 0 200) ∧
    pymin (0 : Rat) 200 ≤ 200 :=
  c3_position_clamped_above_only.2.1 { c3p with paused := true } 0 0
    { id := "trk", duration := 200 } rfl rfl rfl rfl

/-- Claim C3, counterexample: with the stored update timestamp 100
seconds in the future of the reading clock, position evaluates to -100,
which is negative — the claimed clamping to the interval
[0, duration] does not happen. -/
theorem c3_position_can_be_negative :
    positionO c3p 0 = some (-100) ∧ ((-100 : Rat) < 0) := by
  constructor
  · have h0 : positionO c3p 0 = some (pymin (pyRound1 (0 + (0 - 100))) 200) := rfl
    rw [h0]
    have e1 : (0 : Rat) + (0 - 100) = ((-100 : Int) : Rat) := by norm_num
    rw [e1, pyRound1_intCast]
    have e2 : ((-100 : Int) : Rat) = -100 := by norm_num
    rw [e2]
    unfold pymin
    rw [if_pos (by norm_num)]
  · norm_num

/-- Claim C4: the volume setter stores clamp(v, 0, 1000) — always inside
[0, 1000] — and the volume control message carries the clamped value. -/
theorem c4_volume_clamped :
    ∀ (p : PlayerState) (v : Int),
      (set_volume p v).1.volume = max (min v 1000) 0 ∧
      0 ≤ (set_volume p v).1.volume ∧
      (set_volume p v).1.volume ≤ 1000 ∧
      (set_volume p v).2 =
        [("op", JVal.str "volume"),
         ("guildId", JVal.str (toString p.guildId)),
         ("volume", JVal.int (max (min v 1000) 0))] := by
  intro p v
  refine ⟨rfl, le_max_right _ _, ?_, rfl⟩
  exact max_le (le_trans (min_le_right _ _) (by norm_num)) (by norm_num)

/-- Claim C5 (amended): the equalizer validation only checks that the
value under the equalizer key is a list; the list may be empty and its
elements are never inspected, and such calls succeed and send; a
non-list value raises the malformed-payload error naming the equalizer
bundle. -/
theorem c5_equalizer_only_list_checked :
    (∀ (gid : Nat) (l : List JVal),
      set_filters gid { equalizer := some (.dict (.obj [("equalizer", JVal.list l)])) } =
        .ok [("op", .str "filters"), ("guildId", .str (toString gid)),
             ("equalizer", JVal.list l)]) ∧
    (∀ (gid : Nat) (v : JVal), v.isList = false →
      set_filters gid { equalizer := some (.dict (.obj [("equalizer", v)])) } =
        .error (.deformed "Deformed equalizerjson")) := by
  constructor
  · intro gid l
    rfl
  · intro gid v h
    simp [set_filters, applyAll, bundleList, applyBundle, checkEq, getE,
      lookupField, normEq, h]

/-- Claim C5, witness: a non-list equalizer value raises the
malformed-payload error. -/
theorem c5_equalizer_only_list_checked_witness :
    set_filters 17 { equalizer := some (.dict (.obj [("equalizer", JVal.int 5)])) } =
      .error (.deformed "Deformed equalizerjson") :=
  c5_equalizer_only_list_checked.2 17 (JVal.int 5) rfl

/-- Claim C5, counterexample: an empty equalizer list, and a list whose
element has neither band nor gain, are both accepted and sent,
contradicting the claim that such calls raise rather than send. -/
theorem c5_empty_equalizer_accepted :
    set_filters 3 c5emptyArgs =
      .ok [("op", .str "filters"), ("guildId", .str "3"), ("equalizer", .list [])] ∧
    set_filters 3 c5noBandArgs =
      .ok [("op", .str "filters"), ("guildId", .str "3"),
           ("equalizer", .list [JVal.obj []])] ∧
    filtersSends 3 c5emptyArgs =
      [[("op", .str "filters"), ("guildId", .str "3"), ("equalizer", .list [])]] :=
  ⟨rfl, rfl, rfl⟩

/-- Claim C6: the three shorthand forms — equalizer as an ordered list
of (band, gain) pairs, rotation as a single float, lowPass as a single
float — are normalized to their canonical nested dicts (preserving
order for the equalizer) and then validated and merged exactly like
canonical inputs; concrete instances show the merged messages. -/
theorem c6_shorthand_normalization :
    (∀ (gid : Nat) (a : FiltersArgs) (pairs : List (JVal × JVal)) (r s : Rat),
      set_filters gid { a with equalizer := some (.pairs pairs),
                               rotation := some (.num r),
                               lowPass := some (.num s) } =
      set_filters gid { a with
        equalizer := some (.dict (JVal.obj [("equalizer",
          JVal.list (pairs.map (fun pr => JVal.obj [("band", pr.1), ("gain", pr.2)])))])),
        rotation := some (.dict (JVal.obj [("rotation",
          JVal.obj [("rotationHz", JVal.float r)])])),
        lowPass := some (.dict (JVal.obj [("lowPass",
          JVal.obj [("smoothing", JVal.float s)])])) }) ∧
    set_filters 1 { equalizer := some (.pairs
        [(JVal.int 0, JVal.float (-1/4)), (JVal.int 1, JVal.float (1/10))]) } =
      .ok [("op", .str "filters"), ("guildId", .str "1"),
           ("equalizer", JVal.list
             [JVal.obj [("band", JVal.int 0), ("gain", JVal.float (-1/4))],
              JVal.obj [("band", JVal.int 1), ("gain", JVal.float (1/10))]])] ∧
    set_filters 1 { rotation := some (.num (1/5)) } =
      .ok [("op", .str "filters"), ("guildId", .str "1"),
           ("rotation", JVal.obj [("rotationHz", JVal.float (1/5))])] ∧
    set_filters 1 { lowPass := some (.num 20) } =
      .ok [("op", .str "filters"), ("guildId", .str "1"),
           ("lowPass", JVal.obj [("smoothing", JVal.float 20)])] :=
  ⟨fun _ _ _ _ _ => rfl, rfl, rfl, rfl⟩

/-- Claim C7: a StateUpdate whose channelId is empty or null clears the
whole transient voice-state dict — including the sessionId fragment just
merged and any stored event fragment — and dispatches nothing; a
subsequent ServerUpdate alone then still dispatches nothing. -/
theorem c7_empty_channel_clears_state :
    ∀ (p : PlayerState) (sid cid e : JVal), cid.falsy = true →
      on_voice_state_update p (.obj [("session_id", sid), ("channel_id", cid)]) =
        some ({ p with voice_state := [] }, []) ∧
      (on_voice_server_update { p with voice_state := [] } e).2 = [] := by
  intro p sid cid e hcid
  constructor
  · simp [on_voice_state_update, JVal.get, lookupField, hcid]
  · simp [on_voice_server_update, dispatchVoiceUpdate, keysComplete, hasBoth,
      wfVS, dictUpdate]

/-- Claim C7, witness: a disconnect StateUpdate on a player that already
holds an event fragment. -/
theorem c7_empty_channel_clears_state_witness :
    on_voice_state_update
        { mkPlayer 5 .null with voice_state := [("event", JVal.str "ev")] }
        (.obj [("session_id", JVal.str "sid"), ("channel_id", JVal.null)]) =
      some ({ mkPlayer 5 .null with voice_state := [] }, []) ∧
    (on_voice_server_update { mkPlayer 5 .null with voice_state := [] }
        (JVal.str "ev2")).2 = [] := by
  have h := c7_empty_channel_clears_state
    { mkPlayer 5 .null with voice_state := [("event", JVal.str "ev")] }
    (JVal.str "sid") JVal.null (JVal.str "ev2") rfl
  exact h

/-- Claim C8: with the player already playing, play with replace=False
is a no-op — it returns None, sends nothing, and leaves the whole player
state (source, pause flag, tracker baseline) unchanged. -/
theorem c8_play_noreplace_noop :
    ∀ (p : PlayerState) (src : Track) (start endT : Int),
      isPlayingO p = some true →
      play p src false start endT = some (p, [], none) := by
  intro p src start endT h
  simp [play, h]

/-- Claim C8, witness: a connected player with a current source. -/
theorem c8_play_noreplace_noop_witness :
    play c8p { id := "b", duration := 50 } false 0 0 = some (c8p, [], none) :=
  c8_play_noreplace_noop c8p { id := "b", duration := 50 } 0 0 rfl

/-- Claim C9: disconnect removes the player from the node's player list
and runs cleanup in the finally block, whether or not the leave request
raises; under the list invariant (each constructed player registered
once) the player is gone from the list afterwards. -/
theorem c9_disconnect_cleanup_unconditional :
    ∀ (p : PlayerState) (pid : Nat) (players : List Nat) (leaveFails : Bool),
      pid ∈ players →
      (disconnect p pid players leaveFails).cleaned = true ∧
      (disconnect p pid players leaveFails).players = players.erase pid ∧
      (players.Nodup → pid ∉ (disconnect p pid players leaveFails).players) := by
  intro p pid players lf h
  refine ⟨?_, ?_, ?_⟩
  · simp [disconnect, h]
  · simp [disconnect, h]
  · intro hnd hm
    simp only [disconnect, h, if_true, if_pos] at hm
    exact ((hnd.mem_erase_iff).mp hm).1 rfl

/-- Claim C9, witness: a registered player, with the leave request
raising. -/
theorem c9_disconnect_cleanup_unconditional_witness :
    (disconnect (mkPlayer 3 .null) 3 [3] true).cleaned = true ∧
    (disconnect (mkPlayer 3 .null) 3 [3] true).players = [3].erase 3 ∧
    ([3].Nodup → 3 ∉ (disconnect (mkPlayer 3 .null) 3 [3] true).players) :=
  c9_disconnect_cleanup_unconditional (mkPlayer 3 .null) 3 [3] true (by simp)

/-- Claim C10: on a freshly constructed player the connected attribute
was never assigned, so is_connected, is_playing and the position read
all raise (modelled as none) instead of returning false or 0; after the
first connect they are all total. -/
theorem c10_fresh_player_queries_raise :
    ∀ (gid : Nat) (ch : JVal) (t : Rat),
      isConnectedO (mkPlayer gid ch) = none ∧
      isPlayingO (mkPlayer gid ch) = none ∧
      positionO (mkPlayer gid ch) t = none ∧
      isConnectedO (connect (mkPlayer gid ch)) = some true ∧
      isPlayingO (connect (mkPlayer gid ch)) = some false ∧
      positionO (connect (mkPlayer gid ch)) t = some 0 := by
  intro gid ch t
  exact ⟨rfl, rfl, rfl, rfl, rfl, rfl⟩

end Wavelink
